import Mathlib

/-!
Shallow embedding of the Resources repository's four front-end widgets:
the knowledge-check quiz engine (src/js/knowledgeCheck.js), the image
gallery with lightbox (src/js/gallery.js), the quiz catalog list
(Knowledge Check List Manager), and the theme toggle (src/js/theme.js).
DOM rendering is abstracted to the data it displays; JavaScript string and
array operations are translated to their Lean List/String counterparts,
and JavaScript truthiness is modelled explicitly where the code relies on
it.  `Math.random`-driven choices are modelled by an arbitrary oracle
function.
-/

namespace Resources

/-! ### Quiz engine: selection state (src/js/knowledgeCheck.js, selectOption) -/

/-- A per-question entry of `state.selectedAnswers`: in the JS code the
stored value is either a plain option-id string (single-select question)
or an array of option-id strings (multi-select question).  A missing entry
(JS `undefined`) is modelled by `Option.none` around this type. -/
inductive SelValue where
  | str (s : String)
  | arr (l : List String)
deriving DecidableEq, Repr

/-- JS truthiness of a `selectedAnswers[questionId]` value: `undefined` and
the empty string are falsy; every array (even `[]`) is truthy. -/
def jsTruthy : Option SelValue → Bool
  | none => false
  | some (.str s) => !(s == "")
  | some (.arr _) => true

/-- The multi-select branch body of `selectOption`: `indexOf`/`splice`
deselects the first occurrence, otherwise `push` appends only while fewer
than 2 options are selected ("max 2 for Select TWO"). -/
def multiUpdate (selected : List String) (optionId : String) : List String :=
  if optionId ∈ selected then selected.erase optionId
  else if selected.length < 2 then selected ++ [optionId]
  else selected

/-- `selectOption(questionId, optionId, isMultiSelect)` acting on one
question's `selectedAnswers` entry.  In the multi-select branch the code
first replaces a falsy entry by `[]`, then mutates the array; if the entry
held a non-empty string, `splice`/`push` on it would throw a `TypeError`,
modelled by `Except.error`.  The single-select branch assigns the option id
unconditionally. -/
def selectOption (cur : Option SelValue) (optionId : String)
    (isMultiSelect : Bool) : Except Unit (Option SelValue) :=
  if isMultiSelect then
    let cur' := if jsTruthy cur then cur else some (.arr [])
    match cur' with
    | some (.arr selected) => .ok (some (.arr (multiUpdate selected optionId)))
    | _ => .error ()
  else
    .ok (some (.str optionId))

/-- One click on a multi-select question, threading the error case. -/
def multiStep (st : Except Unit (Option SelValue)) (o : String) :
    Except Unit (Option SelValue) :=
  match st with
  | .ok cur => selectOption cur o true
  | .error e => .error e

/-- A sequence of `selectOption` clicks on one multi-select question,
starting from the initial empty state (`selectedAnswers` has no entry). -/
def runMulti (ops : List String) : Except Unit (Option SelValue) :=
  ops.foldl multiStep (.ok none)

/-! ### Quiz engine: question shuffling (src/js/knowledgeCheck.js, shuffleQuestions) -/

/-- One answer option of a quiz question (explanation payload is
presentation data and is not needed by any state-machine operation). -/
structure OptionEntry where
  id : String
  text : String
  isCorrect : Bool
deriving DecidableEq, Repr

/-- A quiz question as held in `this.data.questions`; `displayNumber` is
the field `shuffleQuestions` assigns after shuffling. -/
structure Question where
  id : Nat
  question : String
  multiSelect : Bool
  options : List OptionEntry
  displayNumber : Nat
deriving DecidableEq, Repr

/-- The destructuring swap `[questions[i], questions[j]] = [questions[j],
questions[i]]`.  Out-of-range indices never occur in the loop; the model
leaves the list unchanged there. -/
def listSwap (l : List Question) (i j : Nat) : List Question :=
  match l.get? i, l.get? j with
  | some a, some b => (l.set i b).set j a
  | _, _ => l

/-- The Fisher–Yates loop `for (let i = length - 1; i > 0; i--)`, with the
random draw `Math.floor(Math.random() * (i + 1))` modelled by an arbitrary
oracle `rand`, reduced into the range `0..i` by `% (i + 1)`. -/
def fyLoop (rand : Nat → Nat) : Nat → List Question → List Question
  | 0, qs => qs
  | i + 1, qs => fyLoop rand i (listSwap qs (i + 1) (rand (i + 1) % (i + 2)))

/-- The `forEach` pass reassigning sequential display numbers: element at
index `idx` gets `displayNumber = idx + 1`; `assignFrom n` is the suffix
pass starting at number `n` (the call site uses `n = 1`). -/
def assignFrom (n : Nat) : List Question → List Question
  | [] => []
  | q :: qs => { q with displayNumber := n } :: assignFrom (n + 1) qs

/-- `shuffleQuestions`: Fisher–Yates shuffle in place, then reassign
1-based display numbers in post-shuffle order. -/
def shuffleQuestions (rand : Nat → Nat) (qs : List Question) : List Question :=
  assignFrom 1 (fyLoop rand (qs.length - 1) qs)

/-! ### Gallery (src/js/gallery.js) -/

/-- One `{ name, file }` record of a note's `images` array in
notes-list.json. -/
structure ImageRef where
  name : String
  file : String
deriving DecidableEq, Repr

/-- One note of the manifest; `images` is `none` when the JSON field is
absent (JS `undefined`, falsy), `some` when present (a JS array, truthy
even when empty). -/
structure Note where
  folder : String
  title : String
  hasImages : Bool
  images : Option (List ImageRef)
deriving DecidableEq, Repr

/-- A gallery entry as pushed into `allImages`: the file path joins the
note's folder and the image file with a slash, and `folder` carries the
note's title. -/
structure ImageEntry where
  name : String
  file : String
  folder : String
deriving DecidableEq, Repr

/-- The entries one note contributes: `note.images.map(img => ({ name,
file: folder + "/" + file, folder: title }))`. -/
def noteEntries (note : Note) : List ImageEntry :=
  match note.images with
  | some imgs => imgs.map (fun img =>
      { name := img.name, file := note.folder ++ "/" ++ img.file,
        folder := note.title })
  | none => []

/-- The image-list construction of `loadImages` after a successful fetch:
for the sentinel `folder=all`, concatenate entries of every note passing
the `hasImages && images` truthiness test; otherwise `find` the first note
with the matching folder id and use its images only (no match, or a
falsy/absent guard, leaves `allImages` at its initial `[]`). -/
def buildImages (notes : List Note) (folderParam : String) : List ImageEntry :=
  if folderParam = "all" then
    notes.foldl
      (fun acc note =>
        if note.hasImages then
          match note.images with
          | some _ => acc ++ noteEntries note
          | none => acc
        else acc)
      []
  else
    match notes.find? (fun n => n.folder == folderParam) with
    | some note =>
        if note.hasImages then
          match note.images with
          | some _ => noteEntries note
          | none => []
        else []
    | none => []

/-- What the gallery container ends up showing: the "No images found."
placeholder, a grid of image cards, or the catch-branch error message
("Error loading images...") reached only on a fetch/parse failure. -/
inductive GalleryRender where
  | empty
  | grid (entries : List ImageEntry)
  | loadError
deriving DecidableEq, Repr

/-- `loadGallery`: renders the placeholder when `filteredImages` is empty,
otherwise the grid of the filtered entries. -/
def loadGallery (filteredImages : List ImageEntry) : GalleryRender :=
  if filteredImages.length = 0 then .empty else .grid filteredImages

/-- End-to-end render of `loadImages`: a failed fetch/parse lands in the
catch branch (`loadError`); success builds the image list, copies it to
`filteredImages`, and calls `loadGallery`. -/
def loadImagesResult (fetchOk : Bool) (notes : List Note)
    (folderParam : String) : GalleryRender :=
  if fetchOk then loadGallery (buildImages notes folderParam) else .loadError

/-- The mutable module-level gallery state: `allImages`,
`filteredImages`, `currentImageIndex`. -/
structure GalleryState where
  allImages : List ImageEntry
  filteredImages : List ImageEntry
  currentImageIndex : Int
deriving DecidableEq, Repr

/-- JS `a.includes(b)`: `b` occurs as a contiguous substring of `a`. -/
def jsIncludes (s sub : String) : Bool :=
  decide (sub.toList <:+: s.toList)

/-- JS `toLowerCase()` (locale-free char-wise lowering). -/
def jsToLower (s : String) : String :=
  ⟨s.data.map Char.toLower⟩

/-- The predicate of `filterImages`: case-insensitive substring match of
the search term against the image name or the owning folder title. -/
def matchesSearch (search : String) (img : ImageEntry) : Bool :=
  jsIncludes (jsToLower img.name) search || jsIncludes (jsToLower img.folder) search

/-- `filterImages`: re-derives `filteredImages` from `allImages` with the
lowercased search-box term and re-renders; `allImages` and
`currentImageIndex` are not touched. -/
def filterImages (st : GalleryState) (boxValue : String) : GalleryState :=
  { st with filteredImages := st.allImages.filter (matchesSearch (jsToLower boxValue)) }

/-- `openLightbox(index)`: records the clicked index as
`currentImageIndex` (plus DOM updates carrying no model state). -/
def openLightbox (st : GalleryState) (index : Int) : GalleryState :=
  { st with currentImageIndex := index }

/-- `navigateImage(direction)`: add the direction, then the two wraparound
checks in source order (`< 0` wraps to `length - 1`, then `>= length`
wraps to `0`). -/
def navigateImage (len : Nat) (currentImageIndex direction : Int) : Int :=
  let i1 := currentImageIndex + direction
  let i2 := if i1 < 0 then (len : Int) - 1 else i1
  if i2 ≥ (len : Int) then 0 else i2

/-! ### Quiz catalog list (Knowledge Check List Manager) -/

/-- One catalog entry of kc-list.json's `knowledgeChecks`. -/
structure KC where
  title : String
  topic : String
  file : String
deriving DecidableEq, Repr

/-- `[...new Set(xs)]`: deduplication keeping first occurrences in
insertion order. -/
def setDedup (l : List String) : List String :=
  l.foldl (fun acc t => if t ∈ acc then acc else acc ++ [t]) []

/-- The comparator of `sortKCs`, parameterized by the environment's
locale-aware comparison `lc` (JS `localeCompare`); the topic modes use
JS `||` on the primary result (take the secondary only when the primary
is 0), and any unrecognized sort value compares everything equal. -/
def kcComparator (lc : String → String → Int) (sortValue : String)
    (a b : KC) : Int :=
  if sortValue = "title-asc" then lc a.title b.title
  else if sortValue = "title-desc" then lc b.title a.title
  else if sortValue = "topic-asc" then
    (if lc a.topic b.topic ≠ 0 then lc a.topic b.topic else lc a.title b.title)
  else if sortValue = "topic-desc" then
    (if lc b.topic a.topic ≠ 0 then lc b.topic a.topic else lc a.title b.title)
  else 0

/-- `sortKCs`: `Array.prototype.sort` is a stable sort placing `a` before
`b` when the comparator is ≤ 0; modelled by stable insertion sort. -/
def sortKCs (lc : String → String → Int) (sortValue : String)
    (l : List KC) : List KC :=
  List.insertionSort (fun a b => kcComparator lc sortValue a b ≤ 0) l

/-- `populateTopicFilter`: `[...new Set(kcData.map(kc => kc.topic))].sort()`
— deduplicate the topics, then default `sort()` (lexicographic string
comparison by character code), giving the option list placed after the
fixed "All Topics" entry. -/
def populateTopicFilter (kcData : List KC) : List String :=
  List.insertionSort (fun a b : String => a.data ≤ b.data)
    (setDedup (kcData.map KC.topic))

/-! ### Theme toggle (src/js/theme.js) -/

/-- The theme-relevant state: the document's `data-theme` attribute
(`getAttribute` yields `null`, i.e. `none`, when unset) and the
localStorage `theme` key. -/
structure ThemeState where
  dataTheme : Option String
  storedTheme : Option String
deriving DecidableEq, Repr

/-- `initTheme`'s computation of the initial theme:
`localStorage.getItem('theme') || 'light'` (null and the empty string are
falsy; any other stored string is applied as-is, unvalidated). -/
def initThemeValue (stored : Option String) : String :=
  match stored with
  | none => "light"
  | some s => if s = "" then "light" else s

/-- `toggleTheme`: read the current `data-theme`; exactly the string
`"light"` flips to `"dark"`, every other value (including `null`) yields
`"light"`; the new value is applied to the document and persisted. -/
def toggleTheme (st : ThemeState) : ThemeState :=
  let newTheme := if st.dataTheme = some "light" then "dark" else "light"
  { dataTheme := some newTheme, storedTheme := some newTheme }

/-! ### Helper lemmas -/

/-- A `multiUpdate` step keeps the selection at 2 options or fewer. -/
theorem multiUpdate_length_le (l : List String) (o : String) (h : l.length ≤ 2) :
    (multiUpdate l o).length ≤ 2 := by
  unfold multiUpdate
  split_ifs with h1 h2
  · exact le_trans (l.erase_sublist o).length_le h
  · simp only [List.length_append, List.length_singleton]
    omega
  · exact h

/-- Invariant on the reachable `selectedAnswers` values of one multi-select
question: absent, or an array of at most 2 option ids. -/
def MultiInvariant : Except Unit (Option SelValue) → Prop
  | .ok none => True
  | .ok (some (.arr l)) => l.length ≤ 2
  | _ => False

theorem multiStep_invariant (st : Except Unit (Option SelValue)) (o : String)
    (h : MultiInvariant st) : MultiInvariant (multiStep st o) := by
  match st with
  | .error e => exact absurd h (by simp [MultiInvariant])
  | .ok none =>
      show MultiInvariant (selectOption none o true)
      simp only [selectOption, jsTruthy]
      exact multiUpdate_length_le [] o (by simp)
  | .ok (some (.str s)) => exact absurd h (by simp [MultiInvariant])
  | .ok (some (.arr l)) =>
      show MultiInvariant (selectOption (some (.arr l)) o true)
      simp only [selectOption, jsTruthy]
      exact multiUpdate_length_le l o h

theorem foldl_multiStep_invariant (ops : List String)
    (st : Except Unit (Option SelValue)) (h : MultiInvariant st) :
    MultiInvariant (ops.foldl multiStep st) := by
  induction ops generalizing st with
  | nil => exact h
  | cons o rest ih => exact ih _ (multiStep_invariant st o h)

/-! ### Claim theorems -/

/-- Claim C1, as stated, is false for single-select questions: with option
"A" already selected on a single-select question, `selectOption` with "A"
leaves the state at "A" selected — it does not return to Unanswered
(`none`). -/
theorem C1_counterexample :
    selectOption (some (.str "A")) "A" false = .ok (some (.str "A")) ∧
    (Except.ok (some (SelValue.str "A")) : Except Unit (Option SelValue)) ≠
      .ok none := by
  refine ⟨rfl, fun h => ?_⟩
  simp at h

/-- Claim C1 amended: invoking `selectOption` on a currently selected
option deselects it on a multi-select question (the option id is removed
from the selection set); on a single-select question re-clicking the
selected option leaves that option selected (the state never returns to
Unanswered). -/
theorem C1_selectOption_deselect (l : List String) (o : String) (ho : o ∈ l) :
    selectOption (some (.arr l)) o true = .ok (some (.arr (l.erase o))) ∧
    (l.Nodup → o ∉ l.erase o) ∧
    (∀ o' : String, selectOption (some (.str o')) o' false = .ok (some (.str o'))) := by
  refine ⟨?_, fun hnd => hnd.not_mem_erase, fun o' => rfl⟩
  simp [selectOption, jsTruthy, multiUpdate, ho]

/-- Witness for the amended C1: deselecting "A" from the selection
["A", "B"] yields ["B"], and re-clicking "A" on a single-select question
keeps "A". -/
theorem C1_selectOption_deselect_witness :
    selectOption (some (.arr ["A", "B"])) "A" true = .ok (some (.arr ["B"])) ∧
    selectOption (some (.str "A")) "A" false = .ok (some (.str "A")) := by
  have h := C1_selectOption_deselect ["A", "B"] "A" (by decide)
  exact ⟨by simpa using h.1, h.2.2 "A"⟩

/-- Claim C2: on a multi-select question the selection set never exceeds
2 option ids under any click sequence from the initial state; a 3rd
distinct selection while 2 are selected is a no-op; and after deselecting
one of the 2, a new option id is accepted and appended. -/
theorem C2_multiSelect_cap :
    (∀ (ops : List String) (l : List String),
      runMulti ops = .ok (some (.arr l)) → l.length ≤ 2) ∧
    (∀ (l : List String) (o : String), l.length = 2 → o ∉ l →
      selectOption (some (.arr l)) o true = .ok (some (.arr l))) ∧
    (∀ a b c : String, c ≠ b →
      selectOption (some (.arr [a, b])) a true = .ok (some (.arr [b])) ∧
      selectOption (some (.arr [b])) c true = .ok (some (.arr [b, c]))) := by
  refine ⟨?_, ?_, ?_⟩
  · intro ops l h
    have inv := foldl_multiStep_invariant ops (.ok none) trivial
    rw [show ops.foldl multiStep (.ok none) = runMulti ops from rfl, h] at inv
    exact inv
  · intro l o h2 ho
    have hu : multiUpdate l o = l := by
      unfold multiUpdate
      rw [if_neg ho, if_neg (by omega)]
    simp [selectOption, jsTruthy, hu]
  · intro a b c hcb
    constructor
    · have ha : a ∈ [a, b] := by simp
      simp only [selectOption, jsTruthy, multiUpdate, if_pos ha]
      simp [List.erase_cons_head]
    · have hc : c ∉ [b] := by simpa using hcb
      have hu : multiUpdate [b] c = [b, c] := by
        unfold multiUpdate
        rw [if_neg hc, if_pos (by simp)]
        rfl
      simp [selectOption, jsTruthy, hu]

/-- Witness for C2: three clicks "A", "B", "C" from the empty state leave
the capped selection ["A", "B"], and the cap no-op holds at the concrete
pair. -/
theorem C2_multiSelect_cap_witness :
    (["A", "B"] : List String).length ≤ 2 ∧
    selectOption (some (.arr ["A", "B"])) "C" true = .ok (some (.arr ["A", "B"])) ∧
    selectOption (some (.arr ["X", "Y"])) "X" true = .ok (some (.arr ["Y"])) := by
  refine ⟨?_, ?_, ?_⟩
  · exact C2_multiSelect_cap.1 ["A", "B", "C"] ["A", "B"] (by rfl)
  · exact C2_multiSelect_cap.2.1 ["A", "B"] "C" (by decide) (by decide)
  · exact (C2_multiSelect_cap.2.2 "X" "Y" "Z" (by decide)).1

/-- Claim C4: lightbox navigation wraps around — at index 0 a `-1` step
yields `N - 1`, at index `N - 1` a `+1` step yields 0, and otherwise a
step of -1 or +1 moves to `i + d`. -/
theorem C4_navigateImage_wraparound (N : Nat) (i d : Int)
    (hN : 1 ≤ N) (h0 : 0 ≤ i) (hi : i ≤ (N : Int) - 1) (hd : d = -1 ∨ d = 1) :
    (i = 0 ∧ d = -1 → navigateImage N i d = (N : Int) - 1) ∧
    (i = (N : Int) - 1 ∧ d = 1 → navigateImage N i d = 0) ∧
    (¬(i = 0 ∧ d = -1) → ¬(i = (N : Int) - 1 ∧ d = 1) →
      navigateImage N i d = i + d) := by
  have hN1 : (1 : Int) ≤ (N : Int) := by exact_mod_cast hN
  refine ⟨?_, ?_, ?_⟩
  · rintro ⟨rfl, rfl⟩
    simp only [navigateImage]
    split_ifs <;> omega
  · rintro ⟨rfl, rfl⟩
    simp only [navigateImage]
    split_ifs <;> omega
  · intro h1 h2
    rcases hd with rfl | rfl
    · have hi0 : i ≠ 0 := fun h => h1 ⟨h, rfl⟩
      simp only [navigateImage]
      split_ifs <;> omega
    · have hiN : i ≠ (N : Int) - 1 := fun h => h2 ⟨h, rfl⟩
      simp only [navigateImage]
      split_ifs <;> omega

/-- Witness for C4 at a 3-image gallery: stepping back from index 0 lands
on index 2. -/
theorem C4_navigateImage_wraparound_witness : navigateImage 3 0 (-1) = 2 :=
  (C4_navigateImage_wraparound 3 0 (-1) (by decide) (by decide) (by decide)
    (Or.inl rfl)).1 ⟨rfl, rfl⟩

/-- Claim C8: `filterImages` re-derives the filtered list from the full
list, so applying the same search term twice equals applying it once. -/
theorem C8_filterImages_idempotent (st : GalleryState) (term : String) :
    filterImages (filterImages st term) term = filterImages st term := rfl

/-- Claim C9: `toggleTheme` maps every current `data-theme` value other
than exactly "light" (including "dark", a missing attribute, and corrupt
strings) to "light", applied and persisted; exactly "light" toggles to
"dark"; and `initTheme` carries any non-empty stored string over
unvalidated. -/
theorem C9_toggleTheme_normalizes (v w : Option String)
    (h : v ≠ some "light") :
    toggleTheme ⟨v, w⟩ = ⟨some "light", some "light"⟩ ∧
    (∀ w' : Option String,
      toggleTheme ⟨some "light", w'⟩ = ⟨some "dark", some "dark"⟩) ∧
    (∀ s : String, s ≠ "" → initThemeValue (some s) = s) := by
  refine ⟨?_, fun w' => rfl, fun s hs => by simp [initThemeValue, hs]⟩
  simp only [toggleTheme]
  rw [if_neg (by simpa using h)]

/-- Witness for C9: a corrupt stored value "blue" is normalized to "light"
by one toggle. -/
theorem C9_toggleTheme_normalizes_witness :
    toggleTheme ⟨some "blue", some "blue"⟩ = ⟨some "light", some "light"⟩ :=
  (C9_toggleTheme_normalizes (some "blue") (some "blue") (by decide)).1

/-- Claim C10: `filterImages` never modifies `currentImageIndex`, and
consequently there is a reachable state — lightbox opened at an index,
then a filter shrinking the filtered list — in which `currentImageIndex`
is at least the filtered list's length, referring to no current entry. -/
theorem C10_filterImages_index_frame :
    (∀ (st : GalleryState) (term : String),
      (filterImages st term).currentImageIndex = st.currentImageIndex) ∧
    (∃ (st : GalleryState) (i : Int) (term : String),
      (filterImages (openLightbox st i) term).currentImageIndex ≥
        ((filterImages (openLightbox st i) term).filteredImages.length : Int)) := by
  refine ⟨fun st term => rfl, ?_⟩
  refine ⟨⟨[⟨"a", "x/a.png", "g"⟩, ⟨"b", "x/b.png", "g"⟩],
          [⟨"a", "x/a.png", "g"⟩, ⟨"b", "x/b.png", "g"⟩], 0⟩, 1, "zzz", ?_⟩
  decide

/-- Replacing the element at position `k` (which is `b`) by `x` and
re-consing `b` in front is a permutation of consing `x` in front. -/
theorem cons_set_perm {α : Type} (t : List α) :
    ∀ (k : Nat) (b x : α), t.get? k = some b →
      (b :: t.set k x).Perm (x :: t) := by
  induction t with
  | nil => intro k b x h; simp at h
  | cons y s ih =>
    intro k b x h
    cases k with
    | zero =>
      obtain rfl : y = b := by simpa using h
      simpa [List.set] using List.Perm.swap x y s
    | succ k =>
      have h' : s.get? k = some b := by simpa using h
      have step : (y :: (b :: s.set k x)).Perm (y :: (x :: s)) :=
        (ih k b x h').cons y
      have first : (b :: (y :: s).set (k + 1) x).Perm (y :: (b :: s.set k x)) := by
        simpa [List.set] using List.Perm.swap y b (s.set k x)
      exact (first.trans step).trans (List.Perm.swap x y s)

/-- Exchanging the values at two valid positions is a permutation. -/
theorem set_set_swap_perm {α : Type} :
    ∀ (l : List α) (i j : Nat) (a b : α),
      l.get? i = some a → l.get? j = some b →
      ((l.set i b).set j a).Perm l := by
  intro l
  induction l with
  | nil => intro i j a b hi _; simp at hi
  | cons x t ih =>
    intro i j a b hi hj
    cases i with
    | zero =>
      obtain rfl : x = a := by simpa using hi
      cases j with
      | zero =>
        obtain rfl : x = b := by simpa using hj
        simp [List.set]
      | succ k =>
        have hj' : t.get? k = some b := by simpa using hj
        exact cons_set_perm t k b x hj'
    | succ m =>
      have hi' : t.get? m = some a := by simpa using hi
      cases j with
      | zero =>
        obtain rfl : x = b := by simpa using hj
        exact cons_set_perm t m a x hi'
      | succ k =>
        have hj' : t.get? k = some b := by simpa using hj
        simpa [List.set] using (ih m k a b hi' hj').cons x

/-- A `listSwap` is a permutation of the input. -/
theorem listSwap_perm (l : List Question) (i j : Nat) :
    (listSwap l i j).Perm l := by
  unfold listSwap
  cases hi : l.get? i with
  | none => exact List.Perm.refl l
  | some a =>
    cases hj : l.get? j with
    | none => exact List.Perm.refl l
    | some b => exact set_set_swap_perm l i j a b hi hj

/-- The Fisher–Yates loop permutes the question list. -/
theorem fyLoop_perm (rand : Nat → Nat) :
    ∀ (k : Nat) (l : List Question), (fyLoop rand k l).Perm l := by
  intro k
  induction k with
  | zero => intro l; exact List.Perm.refl l
  | succ i ih =>
    intro l
    exact (ih _).trans (listSwap_perm l (i + 1) (rand (i + 1) % (i + 2)))

/-- Reassigning display numbers does not change the question ids. -/
theorem assignFrom_map_id (n : Nat) (l : List Question) :
    (assignFrom n l).map Question.id = l.map Question.id := by
  induction l generalizing n with
  | nil => rfl
  | cons q qs ih => simp [assignFrom, ih]

/-- After `assignFrom n`, the display numbers in list order are
`n, n + 1, ...`. -/
theorem assignFrom_map_displayNumber (n : Nat) (l : List Question) :
    (assignFrom n l).map Question.displayNumber = List.range' n l.length := by
  induction l generalizing n with
  | nil => rfl
  | cons q qs ih => simp [assignFrom, ih, List.range'_succ]

/-- Claim C3: `shuffleQuestions` preserves the multiset of question ids
(no question lost or duplicated) and assigns display numbers exactly
`1, 2, ..., N` in post-shuffle list order. -/
theorem C3_shuffleQuestions_perm_displayNumbers (rand : Nat → Nat)
    (qs : List Question) :
    ((shuffleQuestions rand qs).map Question.id).Perm (qs.map Question.id) ∧
    (shuffleQuestions rand qs).map Question.displayNumber =
      List.range' 1 qs.length := by
  constructor
  · unfold shuffleQuestions
    rw [assignFrom_map_id]
    exact (fyLoop_perm rand (qs.length - 1) qs).map Question.id
  · unfold shuffleQuestions
    rw [assignFrom_map_displayNumber,
      (fyLoop_perm rand (qs.length - 1) qs).length_eq]

/-- If filtering leaves exactly one element, `find?` returns it. -/
theorem find?_of_filter_singleton {α : Type} (p : α → Bool) :
    ∀ (l : List α) (n : α), l.filter p = [n] → l.find? p = some n := by
  intro l
  induction l with
  | nil => intro n h; simp at h
  | cons x t ih =>
    intro n h
    cases hp : p x with
    | true =>
      rw [List.filter_cons_of_pos hp] at h
      injection h with h1 h2
      subst h1
      simp [List.find?, hp]
    | false =>
      rw [List.filter_cons_of_neg (by simp [hp])] at h
      simp only [List.find?, hp]
      exact ih n h

/-- Claim C5: with a non-"all" folder query, a uniquely matching note
(with `hasImages` and an `images` array) yields exactly its images, each
entry joining the note's folder with the image file by "/" and carrying
the note's title; an unmatched folder id renders the empty gallery, which
is not the manifest-load error. -/
theorem C5_gallery_folder_result (notes : List Note) (p : String) (n : Note)
    (hp : p ≠ "all") :
    (notes.filter (fun nn => nn.folder == p) = [n] → n.hasImages = true →
      ∀ imgs, n.images = some imgs →
        loadImagesResult true notes p = loadGallery (imgs.map (fun img =>
          { name := img.name, file := n.folder ++ "/" ++ img.file,
            folder := n.title }))) ∧
    (notes.filter (fun nn => nn.folder == p) = [] →
      loadImagesResult true notes p = GalleryRender.empty) ∧
    GalleryRender.empty ≠ GalleryRender.loadError := by
  refine ⟨?_, ?_, by simp⟩
  · intro hf hhi imgs himgs
    have hfind : notes.find? (fun nn => nn.folder == p) = some n :=
      find?_of_filter_singleton _ notes n hf
    have hb : buildImages notes p = noteEntries n := by
      unfold buildImages
      rw [if_neg hp, hfind]
      simp [hhi, himgs]
    have hn : noteEntries n = imgs.map (fun img =>
        { name := img.name, file := n.folder ++ "/" ++ img.file,
          folder := n.title }) := by
      unfold noteEntries
      rw [himgs]
    show loadGallery (buildImages notes p) = _
    rw [hb, hn]
  · intro hf
    have hfind : notes.find? (fun nn => nn.folder == p) = none := by
      rw [List.find?_eq_none]
      intro x hx
      have hnx := List.filter_eq_nil_iff.mp hf x hx
      simpa using hnx
    have hb : buildImages notes p = [] := by
      unfold buildImages
      rw [if_neg hp, hfind]
    show loadGallery (buildImages notes p) = _
    rw [hb]
    rfl

/-- Witness for C5: the spec's aws scenario produces exactly one entry
with the joined path and the note's title. -/
theorem C5_gallery_folder_result_witness :
    loadImagesResult true
        [{ folder := "aws", title := "AWS", hasImages := true,
           images := some [{ name := "diagram", file := "d.png" }] }] "aws" =
      GalleryRender.grid
        [{ name := "diagram", file := "aws/d.png", folder := "AWS" }] := by
  have h := (C5_gallery_folder_result
      [{ folder := "aws", title := "AWS", hasImages := true,
         images := some [{ name := "diagram", file := "d.png" }] }] "aws"
      { folder := "aws", title := "AWS", hasImages := true,
        images := some [{ name := "diagram", file := "d.png" }] }
      (by decide)).1 (by decide) rfl
      [{ name := "diagram", file := "d.png" }] rfl
  rw [h]
  decide

/-- Inserting into a list under an everywhere-true relation prepends. -/
theorem orderedInsert_of_forall {α : Type} (r : α → α → Prop) [DecidableRel r]
    (h : ∀ a b, r a b) (x : α) (l : List α) :
    List.orderedInsert r x l = x :: l := by
  cases l with
  | nil => rfl
  | cons y ys => simp [List.orderedInsert, h x y]

/-- Insertion sort under an everywhere-true relation is the identity —
this is exactly the stability of the sort on an all-equal comparator. -/
theorem insertionSort_of_forall {α : Type} (r : α → α → Prop) [DecidableRel r]
    (h : ∀ a b, r a b) (l : List α) :
    List.insertionSort r l = l := by
  induction l with
  | nil => rfl
  | cons x xs ih => simp [List.insertionSort, ih, orderedInsert_of_forall r h]

/-- Claim C6: `sortKCs` with any sort-mode string outside the four
recognized modes leaves the catalog order unchanged (the comparator
returns 0 everywhere and the sort is stable). -/
theorem C6_sortKCs_unrecognized (lc : String → String → Int) (s : String)
    (l : List KC)
    (h : s ∉ (["title-asc", "title-desc", "topic-asc", "topic-desc"] :
      List String)) :
    sortKCs lc s l = l := by
  simp only [List.mem_cons, List.not_mem_nil, or_false, not_or] at h
  obtain ⟨h1, h2, h3, h4⟩ := h
  have hc : ∀ a b : KC, kcComparator lc s a b ≤ 0 := by
    intro a b
    simp [kcComparator, h1, h2, h3, h4]
  unfold sortKCs
  exact insertionSort_of_forall _ hc l

/-- Witness for C6: an unrecognized mode "random" leaves a two-element
catalog in input order. -/
theorem C6_sortKCs_unrecognized_witness :
    sortKCs (fun _ _ => 0) "random"
        [⟨"B", "T2", "f2"⟩, ⟨"A", "T1", "f1"⟩] =
      [⟨"B", "T2", "f2"⟩, ⟨"A", "T1", "f1"⟩] :=
  C6_sortKCs_unrecognized (fun _ _ => 0) "random" _ (by decide)

/-- The `setDedup` fold keeps the accumulator duplicate-free. -/
theorem setDedup_loop_nodup (l : List String) :
    ∀ acc : List String, acc.Nodup →
      (l.foldl (fun acc t => if t ∈ acc then acc else acc ++ [t]) acc).Nodup := by
  induction l with
  | nil => intro acc h; exact h
  | cons x rest ih =>
    intro acc h
    simp only [List.foldl_cons]
    by_cases hx : x ∈ acc
    · rw [if_pos hx]; exact ih acc h
    · rw [if_neg hx]
      refine ih _ ?_
      rw [(List.perm_append_singleton x acc).nodup_iff]
      exact List.nodup_cons.mpr ⟨hx, h⟩

/-- Membership after the `setDedup` fold. -/
theorem setDedup_loop_mem (l : List String) :
    ∀ (acc : List String) (t : String),
      (t ∈ l.foldl (fun acc u => if u ∈ acc then acc else acc ++ [u]) acc) ↔
        (t ∈ acc ∨ t ∈ l) := by
  induction l with
  | nil => intro acc t; simp
  | cons x rest ih =>
    intro acc t
    simp only [List.foldl_cons]
    by_cases hx : x ∈ acc
    · rw [if_pos hx, ih]
      simp only [List.mem_cons]
      constructor
      · rintro (h | h)
        · exact Or.inl h
        · exact Or.inr (Or.inr h)
      · rintro (h | rfl | h)
        · exact Or.inl h
        · exact Or.inl hx
        · exact Or.inr h
    · rw [if_neg hx, ih]
      simp only [List.mem_append, List.mem_singleton, List.mem_cons]
      tauto

theorem setDedup_nodup (l : List String) : (setDedup l).Nodup :=
  setDedup_loop_nodup l [] List.nodup_nil

theorem setDedup_mem (l : List String) (t : String) :
    t ∈ setDedup l ↔ t ∈ l := by
  unfold setDedup
  rw [setDedup_loop_mem]
  simp

/-- Claim C7: `populateTopicFilter` yields the distinct topic strings —
duplicate-free, sorted, containing exactly the catalog's topics — and on
the spec's example catalog with topics ["EC2", "S3", "EC2"] gives exactly
["EC2", "S3"]. -/
theorem C7_populateTopicFilter_sorted_dedup (kcData : List KC) :
    (populateTopicFilter kcData).Sorted (fun a b : String => a.data ≤ b.data) ∧
    (populateTopicFilter kcData).Nodup ∧
    (∀ t, t ∈ populateTopicFilter kcData ↔ t ∈ kcData.map KC.topic) ∧
    populateTopicFilter
        [⟨"KC1", "EC2", "f1"⟩, ⟨"KC2", "S3", "f2"⟩, ⟨"KC3", "EC2", "f3"⟩] =
      ["EC2", "S3"] := by
  haveI htot : IsTotal String (fun a b : String => a.data ≤ b.data) :=
    ⟨fun a b => le_total a.data b.data⟩
  haveI htr : IsTrans String (fun a b : String => a.data ≤ b.data) :=
    ⟨fun _ _ _ hab hbc => le_trans hab hbc⟩
  refine ⟨?_, ?_, ?_, by decide⟩
  · exact List.sorted_insertionSort _ _
  · exact ((List.perm_insertionSort _ _).nodup_iff).mpr
      (setDedup_nodup (kcData.map KC.topic))
  · intro t
    unfold populateTopicFilter
    rw [(List.perm_insertionSort _ _).mem_iff, setDedup_mem]

end Resources
